import Mathlib

/-!
Shallow embedding of the webpack configuration generator in
`src/webpack-utils.js`.  Every definition below is translated from a
function of that file and keeps its name where Lean allows it.  The
generated configuration object is modelled as an association list of
top-level keys to a `ConfigValue` union, mirroring the JavaScript object
spread performed by `buildWebpackConfiguration`.
-/

set_option autoImplicit false
set_option linter.unusedVariables false

namespace WebpackUtils

/-- Possible build modes, from the `BuildMode` constant object. -/
inductive BuildMode where
  | development
  | production
  deriving DecidableEq, Repr

/-- Renders a build mode to the string used in the JavaScript source,
where `settings.mode` is itself a string. -/
def BuildMode.toModeString : BuildMode → String
  | .development => "development"
  | .production => "production"

/-- The distinct regular-expression literals appearing in `loadSettings`.
`nodeModulesRe` is the only one without the case-insensitive flag. -/
inductive JsRegex where
  | nodeModulesRe
  | jsxRe
  | tsxRe
  | cssRe
  | imageRe
  | fontRe
  | wasmRe
  | unityRe
  deriving DecidableEq, Repr

/-- Boolean test for whether one character list starts with another. -/
def startsWithL : List Char → List Char → Bool
  | [], _ => true
  | _ :: _, [] => false
  | a :: as, b :: bs => a == b && startsWithL as bs

/-- Boolean substring test on character lists. -/
def containsSub (needle : List Char) : List Char → Bool
  | [] => startsWithL needle []
  | c :: cs => startsWithL needle (c :: cs) || containsSub needle cs

/-- Boolean suffix test on character lists. -/
def endsWithL (needle hay : List Char) : Bool :=
  startsWithL needle.reverse hay.reverse

/-- Lower-cases a string into a character list; used to model the `i`
(case-insensitive) flag carried by the file-matching regexes. -/
def lowerChars (s : String) : List Char :=
  s.toList.map Char.toLower

/-- Matching semantics of each regular-expression literal, as a test on a
file path. All patterns except `node_modules` are case-insensitive and
anchored at the end of the path. -/
def regexTest (r : JsRegex) (p : String) : Bool :=
  match r with
  | .nodeModulesRe => containsSub "node_modules".toList p.toList
  | .jsxRe => endsWithL ".js".toList (lowerChars p) || endsWithL ".jsx".toList (lowerChars p)
  | .tsxRe => endsWithL ".ts".toList (lowerChars p) || endsWithL ".tsx".toList (lowerChars p)
  | .cssRe => endsWithL ".css".toList (lowerChars p)
  | .imageRe =>
      endsWithL ".png".toList (lowerChars p) || endsWithL ".svg".toList (lowerChars p) ||
      endsWithL ".jpg".toList (lowerChars p) || endsWithL ".jpeg".toList (lowerChars p) ||
      endsWithL ".gif".toList (lowerChars p)
  | .fontRe =>
      endsWithL ".woff".toList (lowerChars p) || endsWithL ".woff2".toList (lowerChars p) ||
      endsWithL ".eot".toList (lowerChars p) || endsWithL ".ttf".toList (lowerChars p) ||
      endsWithL ".otf".toList (lowerChars p)
  | .wasmRe => endsWithL ".wasm".toList (lowerChars p)
  | .unityRe => endsWithL ".unity".toList (lowerChars p)

/-- Paths used by the build process (`IBuildPaths`). -/
structure BuildPaths where
  entryFile : String
  outputPath : String
  indexHtmlTemplate : String
  devServerContentPath : String
  deriving DecidableEq, Repr

/-- File-matching patterns (`IFilesPatterns`). -/
structure FilesPatterns where
  dependenciesFiles : JsRegex
  sourceMapFiles : JsRegex
  javascriptFiles : JsRegex
  typescriptFiles : JsRegex
  cssFiles : JsRegex
  imageFiles : JsRegex
  fontFiles : JsRegex
  wasmFiles : JsRegex
  unityFiles : JsRegex
  deriving DecidableEq, Repr

/-- One copy instruction (`CopyInstruction`); `src` and `dst` stand for the
`from` and `to` fields, renamed because `from` is a Lean keyword. -/
structure CopyInstruction where
  src : String
  dst : String
  deriving DecidableEq, Repr

/-- The build settings object (`ISettings`). `copyExistingFiles` is an
optional field, modelled with `Option`. -/
structure Settings where
  mode : BuildMode
  paths : BuildPaths
  patterns : FilesPatterns
  copyExistingFiles : Option (List CopyInstruction)
  deriving DecidableEq, Repr

/-- Models Node's `path.join` for the simple two-segment joins performed in
`loadSettings`. -/
def pathJoin (a b : String) : String :=
  a ++ "/" ++ b

/-- Models the JavaScript `a || b` chain on an optional string, where
`undefined` and the empty string are falsy. -/
def jsOrStr (a : Option String) (b : String) : String :=
  match a with
  | none => b
  | some s => if s = "" then b else s

/-- The expression `process.env.NODE_ENV || argv[mode] || development`
from `loadSettings`, with the two global reads passed explicitly. -/
def resolveEnvironment (nodeEnv argvMode : Option String) : String :=
  jsOrStr nodeEnv (jsOrStr argvMode "development")

/-- The fixed pattern group built in `loadSettings`. -/
def defaultPatterns : FilesPatterns where
  dependenciesFiles := .nodeModulesRe
  sourceMapFiles := .jsxRe
  javascriptFiles := .jsxRe
  typescriptFiles := .tsxRe
  cssFiles := .cssRe
  imageFiles := .imageRe
  fontFiles := .fontRe
  wasmFiles := .wasmRe
  unityFiles := .unityRe

/-- Translation of `loadSettings`.  The reads of global state
(`process.env.NODE_ENV` and `process.cwd()`) are passed as explicit
arguments `nodeEnv` and `basePath`; `argvMode` is the `mode` entry of the
argument mapping, absent entries being `none`.  The two `console.log`
calls are purely observational and are not modelled. -/
def loadSettings (nodeEnv argvMode : Option String) (basePath : String) : Settings :=
  let environment := resolveEnvironment nodeEnv argvMode
  let srcPath := pathJoin basePath "src"
  let distPath := pathJoin basePath "dist"
  { mode := if environment = "production" then BuildMode.production else BuildMode.development
    paths :=
      { entryFile := pathJoin srcPath "index.ts"
        outputPath := distPath
        indexHtmlTemplate := pathJoin srcPath "index.html"
        devServerContentPath := distPath }
    patterns := defaultPatterns
    copyExistingFiles := none }

/-- Babel presets appearing in `createLanguageLoader`. -/
inductive BabelPreset where
  | envPreset
  | reactPreset (runtime : String) (development : Bool)
  | typescriptPreset
  deriving DecidableEq, Repr

/-- PostCSS plugins appearing in `createStylesLoader`. -/
inductive PostcssPlugin where
  | postcssImport
  | tailwindNesting
  | tailwind (purgeEnabled : Bool) (content : List String)
  | presetEnv (stage : Nat) (nestingRules : Bool)
  deriving DecidableEq, Repr

/-- An entry of a rule's `use` array: either a bare loader name or a
loader with its options object. -/
inductive LoaderUse where
  | plain (name : String)
  | babel (targets : String) (sourceMaps : Bool) (presets : List BabelPreset) (plugins : List String)
  | astroturf (extension : String)
  | postcss (plugins : List PostcssPlugin)
  deriving DecidableEq, Repr

/-- A webpack `RuleSetRule` as used in this file: a test pattern, an
optional exclusion, an optional `enforce` category, a `use` chain and an
optional asset `type`. -/
structure LoaderRule where
  test : JsRegex
  exclude : Option JsRegex := none
  enforce : Option String := none
  use : List LoaderUse := []
  type : Option String := none
  deriving DecidableEq, Repr

/-- An entry of `module.rules`: either a plain rule or a `oneOf` group. -/
inductive ModuleRuleEntry where
  | rule (r : LoaderRule)
  | oneOf (rs : List LoaderRule)
  deriving DecidableEq, Repr

/-- Effective match of a rule on a path: the `test` pattern must match and
the `exclude` pattern, when present, must not. -/
def ruleMatches (r : LoaderRule) (p : String) : Bool :=
  regexTest r.test p &&
    !(match r.exclude with
      | some ex => regexTest ex p
      | none => false)

/-- Translation of `createSourceMapsLoader`. -/
def createSourceMapsLoader (settings : Settings) : List LoaderRule :=
  [{ test := settings.patterns.sourceMapFiles
     exclude := some settings.patterns.dependenciesFiles
     enforce := some "pre"
     use := [.plain "source-map-loader"] }]

/-- Translation of `createLanguageLoader`: the JavaScript rule followed by
the Typescript rule. -/
def createLanguageLoader (settings : Settings) : List LoaderRule :=
  [{ test := settings.patterns.javascriptFiles
     exclude := some settings.patterns.dependenciesFiles
     use := [.babel "defaults" (settings.mode == BuildMode.development)
               [.envPreset]
               ["@babel/plugin-transform-runtime"]] },
   { test := settings.patterns.typescriptFiles
     exclude := some settings.patterns.dependenciesFiles
     use := [.babel "defaults" (settings.mode == BuildMode.development)
               [.envPreset,
                .reactPreset "automatic" (settings.mode == BuildMode.development),
                .typescriptPreset]
               ["@babel/plugin-transform-runtime", "@babel/plugin-proposal-class-properties"],
             .astroturf ".module.css"] }]

/-- Translation of `createStylesLoader`. -/
def createStylesLoader (settings : Settings) : List LoaderRule :=
  [{ test := settings.patterns.cssFiles
     use := [.plain "style-loader",
             .plain "css-loader",
             .postcss
               [.postcssImport,
                .tailwindNesting,
                .tailwind (settings.mode == BuildMode.production)
                  ["./src/**/*.html", "./src/**/*.ts", "./src/**/*.tsx"],
                .presetEnv 3 false]] }]

/-- Translation of `createImagesLoader`. -/
def createImagesLoader (settings : Settings) : List LoaderRule :=
  [{ test := settings.patterns.imageFiles
     type := some "asset/resource" }]

/-- Translation of `createFontsLoader`. -/
def createFontsLoader (settings : Settings) : List LoaderRule :=
  [{ test := settings.patterns.fontFiles
     type := some "asset/resource" }]

/-- Translation of `createWasmLoader`. -/
def createWasmLoader (settings : Settings) : List LoaderRule :=
  [{ test := settings.patterns.wasmFiles
     type := some "asset/resource" }]

/-- Translation of `createUnityLoader`. -/
def createUnityLoader (settings : Settings) : List LoaderRule :=
  [{ test := settings.patterns.unityFiles
     type := some "asset/resource" }]

/-- Plugin instances produced by the three plugin factories. -/
inductive Plugin where
  | htmlWebpack (template : String)
  | dotenv (path : String) (systemvars : Bool)
  | copy (patterns : List CopyInstruction)
  deriving DecidableEq, Repr

/-- Translation of `createHtmlBundleInjectionPlugin`. -/
def createHtmlBundleInjectionPlugin (settings : Settings) : Plugin :=
  .htmlWebpack settings.paths.indexHtmlTemplate

/-- Translation of `createEnvironmentVariablesPlugin`. -/
def createEnvironmentVariablesPlugin (settings : Settings) : Plugin :=
  .dotenv ("./.env." ++ settings.mode.toModeString) true

/-- Translation of `createFileCopyPlugin`; returning `none` models the
early `return` of `undefined`. -/
def createFileCopyPlugin (settings : Settings) : Option Plugin :=
  match settings.copyExistingFiles with
  | none => none
  | some l => if l.length = 0 then none else some (.copy l)

/-- Structures for the remaining configuration sections. -/
structure OutputCfg where
  path : String
  filename : String
  publicPath : String
  deriving DecidableEq, Repr

/-- The `node` polyfill flags section. -/
structure NodeCfg where
  globalFlag : Bool
  filenameFlag : Bool
  dirnameFlag : Bool
  deriving DecidableEq, Repr

/-- The `resolve.fallback` section; `false` in the source marks a module
as unavailable. -/
structure FallbackCfg where
  fs : Bool
  path : Bool
  deriving DecidableEq, Repr

/-- The `resolve` section, aggregated by the main builder from the
extensions and fallback builders. -/
structure ResolveCfg where
  extensions : List String
  fallback : FallbackCfg
  deriving DecidableEq, Repr

/-- The `devtool` setting: a named source-map policy or the literal
`false`. -/
inductive DevtoolSetting where
  | enabled (name : String)
  | disabled
  deriving DecidableEq, Repr

/-- The `devServer` section. `openBrowser` stands for the `open` field,
renamed because `open` is a Lean keyword. -/
structure DevServerCfg where
  contentBase : String
  compress : Bool
  port : Nat
  https : Bool
  openBrowser : Bool
  writeToDisk : Bool
  historyApiFallback : Bool
  deriving DecidableEq, Repr

/-- Union of the values stored under the top-level configuration keys. -/
inductive ConfigValue where
  | modeV (m : BuildMode)
  | entryV (p : String)
  | outputV (o : OutputCfg)
  | nodeV (n : NodeCfg)
  | resolveV (r : ResolveCfg)
  | moduleV (rules : List ModuleRuleEntry)
  | devtoolV (d : DevtoolSetting)
  | devServerV (d : Option DevServerCfg)
  | pluginsV (ps : List Plugin)
  | statsV (s : String)
  deriving DecidableEq, Repr

/-- A configuration slice: an association list of top-level keys, merged
by concatenation just as the object spread in the source merges keys. -/
abbrev ConfigSlice := List (String × ConfigValue)

/-- Translation of `configureBuildMode`. -/
def configureBuildMode (settings : Settings) : ConfigSlice :=
  [("mode", .modeV settings.mode)]

/-- Translation of `configureAppEntryPoints`. -/
def configureAppEntryPoints (settings : Settings) : ConfigSlice :=
  [("entry", .entryV settings.paths.entryFile)]

/-- Translation of `configureBundleOutput`. -/
def configureBundleOutput (settings : Settings) : ConfigSlice :=
  [("output", .outputV
      { path := settings.paths.outputPath
        filename := "bundle.js"
        publicPath := "/" })]

/-- Translation of `configureNodeJsBasicPolyfills`: `globalFlag`,
`filenameFlag` and `dirnameFlag` stand for the `global`, `__filename` and
`__dirname` fields. -/
def configureNodeJsBasicPolyfills (settings : Settings) : ConfigSlice :=
  [("node", .nodeV { globalFlag := true, filenameFlag := false, dirnameFlag := false })]

/-- Translation of `configureSupportedFileExtensions`; the entry
`...` stands for the bundler's built-in default extension set. -/
def configureSupportedFileExtensions (settings : Settings) : List String :=
  [".ts", ".tsx", "..."]

/-- Translation of `configureNodeJsFallbacks`. -/
def configureNodeJsFallbacks (settings : Settings) : FallbackCfg :=
  { fs := false, path := false }

/-- Translation of `configureLoaders`: the source-map rule is spread in
front of the `oneOf` group only in development mode. -/
def configureLoaders (settings : Settings) : ConfigSlice :=
  let rules :=
    createStylesLoader settings ++ createLanguageLoader settings ++
    createImagesLoader settings ++ createFontsLoader settings ++
    createWasmLoader settings ++ createUnityLoader settings
  [("module", .moduleV
      ((if settings.mode == BuildMode.development then
          createSourceMapsLoader settings
        else []).map ModuleRuleEntry.rule
       ++ [ModuleRuleEntry.oneOf rules]))]

/-- Extracts the `module.rules` list produced by `configureLoaders`. -/
def moduleRuleEntries (settings : Settings) : List ModuleRuleEntry :=
  match configureLoaders settings with
  | [(_, .moduleV rs)] => rs
  | _ => []

/-- Translation of `configureSourceMapsGeneration`. -/
def configureSourceMapsGeneration (settings : Settings) : ConfigSlice :=
  [("devtool", .devtoolV
      (if settings.mode == BuildMode.development then
        .enabled "inline-cheap-module-source-map"
      else .disabled))]

/-- Translation of `configureDevelopmentServer`; the production branch
returns the key with the value `undefined`, modelled as `none`. -/
def configureDevelopmentServer (settings : Settings) : ConfigSlice :=
  if settings.mode != BuildMode.development then
    [("devServer", .devServerV none)]
  else
    [("devServer", .devServerV (some
        { contentBase := settings.paths.devServerContentPath
          compress := true
          port := 9000
          https := true
          openBrowser := true
          writeToDisk := true
          historyApiFallback := true }))]

/-- The plugin array of `configurePlugins`: the three factory results with
the falsy (absent) ones filtered out, as `.filter(Boolean)` does. -/
def pluginList (settings : Settings) : List Plugin :=
  [some (createEnvironmentVariablesPlugin settings),
   some (createHtmlBundleInjectionPlugin settings),
   createFileCopyPlugin settings].filterMap id

/-- Translation of `configurePlugins`. -/
def configurePlugins (settings : Settings) : ConfigSlice :=
  [("plugins", .pluginsV (pluginList settings))]

/-- Translation of `configureLogLevel`. -/
def configureLogLevel (settings : Settings) : ConfigSlice :=
  [("stats", .statsV "normal")]

/-- Translation of `buildWebpackConfiguration`: the shallow merge of the
section builders' outputs, with the `resolve` sub-section aggregated from
the extensions and fallback builders. -/
def buildWebpackConfiguration (settings : Settings) : ConfigSlice :=
  configureBuildMode settings ++
  configureAppEntryPoints settings ++
  configureBundleOutput settings ++
  configureNodeJsBasicPolyfills settings ++
  [("resolve", .resolveV
      { extensions := configureSupportedFileExtensions settings
        fallback := configureNodeJsFallbacks settings })] ++
  configureLoaders settings ++
  configureSourceMapsGeneration settings ++
  configureDevelopmentServer settings ++
  configurePlugins settings ++
  configureLogLevel settings

/-- Translation of `getBasicTypeScriptReactWebAppConfiguration`, the
exported entry point. -/
def getBasicTypeScriptReactWebAppConfiguration
    (nodeEnv argvMode : Option String) (basePath : String) : ConfigSlice :=
  buildWebpackConfiguration (loadSettings nodeEnv argvMode basePath)

/-- Collects the TailwindCSS `purge.enabled` flags of a PostCSS plugin
list. -/
def tailwindPurgeFlagsOfPostcss : List PostcssPlugin → List Bool
  | [] => []
  | PostcssPlugin.tailwind en _ :: rest => en :: tailwindPurgeFlagsOfPostcss rest
  | _ :: rest => tailwindPurgeFlagsOfPostcss rest

/-- Collects the TailwindCSS `purge.enabled` flags of a `use` chain. -/
def tailwindPurgeFlagsOfUse : List LoaderUse → List Bool
  | [] => []
  | LoaderUse.postcss ps :: rest => tailwindPurgeFlagsOfPostcss ps ++ tailwindPurgeFlagsOfUse rest
  | _ :: rest => tailwindPurgeFlagsOfUse rest

/-- Collects the TailwindCSS `purge.enabled` flags of a rule list. -/
def tailwindPurgeFlags : List LoaderRule → List Bool
  | [] => []
  | r :: rest => tailwindPurgeFlagsOfUse r.use ++ tailwindPurgeFlags rest

end WebpackUtils

namespace WebpackUtils

/-- Claim C1: `loadSettings` resolves the build mode in the order
environment override, then invocation argument, then default; with no
environment variable and no argument the mode is development; any value
other than the `production` literal (missing or malformed input) degrades
to the development default, never failing. -/
theorem loadSettings_mode_resolution
    (nodeEnv argvMode : Option String) (basePath : String) :
    ((loadSettings nodeEnv argvMode basePath).mode = BuildMode.production ∨
      (loadSettings nodeEnv argvMode basePath).mode = BuildMode.development)
    ∧ (∀ v : String, v ≠ "" → nodeEnv = some v →
        (loadSettings nodeEnv argvMode basePath).mode =
          (if v = "production" then BuildMode.production else BuildMode.development))
    ∧ ((nodeEnv = none ∨ nodeEnv = some "") → ∀ v : String, v ≠ "" → argvMode = some v →
        (loadSettings nodeEnv argvMode basePath).mode =
          (if v = "production" then BuildMode.production else BuildMode.development))
    ∧ ((nodeEnv = none ∨ nodeEnv = some "") → (argvMode = none ∨ argvMode = some "") →
        (loadSettings nodeEnv argvMode basePath).mode = BuildMode.development)
    ∧ ((loadSettings none none basePath).mode = BuildMode.development)
    ∧ (resolveEnvironment nodeEnv argvMode ≠ "production" →
        (loadSettings nodeEnv argvMode basePath).mode = BuildMode.development) := by
  refine ⟨?_, ?_, ?_, ?_, ?_, ?_⟩
  · by_cases h : resolveEnvironment nodeEnv argvMode = "production"
    · exact Or.inl (by simp [loadSettings, h])
    · exact Or.inr (by simp [loadSettings, h])
  · intro v hv he
    subst he
    simp [loadSettings, resolveEnvironment, jsOrStr, hv]
  · intro he v hv ha
    subst ha
    rcases he with h | h <;> subst h <;>
      simp [loadSettings, resolveEnvironment, jsOrStr, hv]
  · intro he ha
    rcases he with h | h <;> rcases ha with h' | h' <;> subst h <;> subst h' <;>
      simp [loadSettings, resolveEnvironment, jsOrStr]
  · simp [loadSettings, resolveEnvironment, jsOrStr]
  · intro h
    simp [loadSettings, h]

/-- Witness for C1: concrete inputs exercising every branch of the
resolution order. -/
theorem loadSettings_mode_resolution_checks :
    (loadSettings (some "production") (some "development") "/base").mode = BuildMode.production
    ∧ (loadSettings none (some "production") "/base").mode = BuildMode.production
    ∧ (loadSettings none none "/base").mode = BuildMode.development
    ∧ (loadSettings (some "staging") none "/base").mode = BuildMode.development := by
  refine ⟨?_, ?_, ?_, ?_⟩
  · have h := (loadSettings_mode_resolution (some "production") (some "development") "/base").2.1
      "production" (by decide) rfl
    simpa using h
  · have h := (loadSettings_mode_resolution none (some "production") "/base").2.2.1
      (Or.inl rfl) "production" (by decide) rfl
    simpa using h
  · exact (loadSettings_mode_resolution none none "/base").2.2.2.2.1
  · exact (loadSettings_mode_resolution (some "staging") none "/base").2.2.2.2.2 (by decide)

/-- Claim C2: in development mode the configuration carries a dev-server
section with the static content root, compression, port 9000, https,
automatic browser launch, write-to-disk and SPA fallback routing, and a
non-empty devtool policy; in production mode the dev-server value is
absent (`undefined`) and the devtool policy is the literal `false`. -/
theorem devServer_and_devtool_by_mode (settings : Settings) :
    (settings.mode = BuildMode.development →
      configureDevelopmentServer settings =
        [("devServer", ConfigValue.devServerV (some
            { contentBase := settings.paths.devServerContentPath
              compress := true
              port := 9000
              https := true
              openBrowser := true
              writeToDisk := true
              historyApiFallback := true }))]
      ∧ configureSourceMapsGeneration settings =
          [("devtool", ConfigValue.devtoolV
              (DevtoolSetting.enabled "inline-cheap-module-source-map"))]
      ∧ "inline-cheap-module-source-map" ≠ "")
    ∧ (settings.mode = BuildMode.production →
      configureDevelopmentServer settings = [("devServer", ConfigValue.devServerV none)]
      ∧ configureSourceMapsGeneration settings =
          [("devtool", ConfigValue.devtoolV DevtoolSetting.disabled)]) := by
  constructor
  · intro h
    refine ⟨?_, ?_, by decide⟩ <;>
      simp [configureDevelopmentServer, configureSourceMapsGeneration, h]
  · intro h
    constructor <;>
      simp [configureDevelopmentServer, configureSourceMapsGeneration, h]

/-- Witness for C2: evaluation at a development and a production settings
record. -/
theorem devServer_and_devtool_by_mode_checks :
    configureDevelopmentServer (loadSettings none none "/base") =
      [("devServer", ConfigValue.devServerV (some
          { contentBase := "/base/dist"
            compress := true
            port := 9000
            https := true
            openBrowser := true
            writeToDisk := true
            historyApiFallback := true }))]
    ∧ configureDevelopmentServer (loadSettings (some "production") none "/base") =
        [("devServer", ConfigValue.devServerV none)]
    ∧ configureSourceMapsGeneration (loadSettings (some "production") none "/base") =
        [("devtool", ConfigValue.devtoolV DevtoolSetting.disabled)] := by
  refine ⟨?_, ?_, ?_⟩
  · exact ((devServer_and_devtool_by_mode (loadSettings none none "/base")).1 rfl).1
  · exact ((devServer_and_devtool_by_mode (loadSettings (some "production") none "/base")).2 rfl).1
  · exact ((devServer_and_devtool_by_mode (loadSettings (some "production") none "/base")).2 rfl).2

/-- Claim C3: with an absent or empty copy-instruction sequence the plugin
list is exactly the environment-injection and HTML-injection plugins (two
entries, no error or placeholder); with a non-empty sequence it has
exactly three entries. -/
theorem plugin_list_size_by_copy_instructions (settings : Settings) :
    ((settings.copyExistingFiles = none ∨ settings.copyExistingFiles = some []) →
      pluginList settings =
        [createEnvironmentVariablesPlugin settings, createHtmlBundleInjectionPlugin settings]
      ∧ (pluginList settings).length = 2)
    ∧ (∀ l : List CopyInstruction, settings.copyExistingFiles = some l → l ≠ [] →
      pluginList settings =
        [createEnvironmentVariablesPlugin settings, createHtmlBundleInjectionPlugin settings,
          Plugin.copy l]
      ∧ (pluginList settings).length = 3) := by
  constructor
  · intro h
    rcases h with h | h <;>
      simp [pluginList, createFileCopyPlugin, h]
  · intro l hl hne
    have hlen : ¬ l.length = 0 := by
      simpa [List.length_eq_zero] using hne
    simp [pluginList, createFileCopyPlugin, hl, hlen]

/-- Witness for C3: a settings record without copy instructions yields two
plugins; adding one instruction yields three. -/
theorem plugin_list_size_by_copy_instructions_checks :
    (pluginList (loadSettings none none "/base")).length = 2
    ∧ (pluginList
        { loadSettings none none "/base" with
          copyExistingFiles := some [{ src := "public", dst := "dist" }] }).length = 3 := by
  constructor
  · exact ((plugin_list_size_by_copy_instructions (loadSettings none none "/base")).1
      (Or.inl rfl)).2
  · exact ((plugin_list_size_by_copy_instructions _).2
      [{ src := "public", dst := "dist" }] rfl (by decide)).2

/-- Claim C4: the dependency-source-map rule is in `module.rules` exactly
when the mode is development, and then it is the first entry, outside the
`oneOf` group, while every other processing rule sits inside the single
`oneOf` group. -/
theorem sourceMap_rule_placement_by_mode (settings : Settings) :
    (settings.mode = BuildMode.development →
      moduleRuleEntries settings =
        ModuleRuleEntry.rule
          { test := settings.patterns.sourceMapFiles
            exclude := some settings.patterns.dependenciesFiles
            enforce := some "pre"
            use := [.plain "source-map-loader"] }
        :: [ModuleRuleEntry.oneOf
            (createStylesLoader settings ++ createLanguageLoader settings ++
              createImagesLoader settings ++ createFontsLoader settings ++
              createWasmLoader settings ++ createUnityLoader settings)])
    ∧ (settings.mode = BuildMode.production →
      moduleRuleEntries settings =
        [ModuleRuleEntry.oneOf
          (createStylesLoader settings ++ createLanguageLoader settings ++
            createImagesLoader settings ++ createFontsLoader settings ++
            createWasmLoader settings ++ createUnityLoader settings)]) := by
  constructor <;> intro h <;>
    simp [moduleRuleEntries, configureLoaders, createSourceMapsLoader, h]

/-- Witness for C4: the development rule list has the extra leading
source-map entry, the production list only the `oneOf` group. -/
theorem sourceMap_rule_placement_by_mode_checks :
    (moduleRuleEntries (loadSettings none none "/base")).length = 2
    ∧ (moduleRuleEntries (loadSettings (some "production") none "/base")).length = 1 := by
  constructor
  · rw [(sourceMap_rule_placement_by_mode (loadSettings none none "/base")).1 rfl]
    rfl
  · rw [(sourceMap_rule_placement_by_mode (loadSettings (some "production") none "/base")).2 rfl]
    rfl

/-- Claim C5: the TailwindCSS purge-enabled flag carried by the stylesheet
rule is `true` exactly when the settings mode is production (and the
stylesheet rule carries exactly one such flag). -/
theorem tailwind_purge_iff_production (settings : Settings) :
    tailwindPurgeFlags (createStylesLoader settings) = [true] ↔
      settings.mode = BuildMode.production := by
  cases h : settings.mode <;>
    simp [createStylesLoader, tailwindPurgeFlags, tailwindPurgeFlagsOfUse,
      tailwindPurgeFlagsOfPostcss, h]

/-- Claim C6: the section builders contribute pairwise distinct top-level
keys, so the shallow merge performed by the aggregator never lets one
builder's result overwrite another's. -/
theorem builder_keys_disjoint (settings : Settings) :
    ((buildWebpackConfiguration settings).map Prod.fst).Nodup := by
  have h : (buildWebpackConfiguration settings).map Prod.fst =
      ["mode", "entry", "output", "node", "resolve", "module", "devtool", "devServer",
        "plugins", "stats"] := by
    obtain ⟨m, p, pat, c⟩ := settings
    cases m <;> rfl
  rw [h]
  decide

/-- Claim C7: the aggregator is deterministic in the settings record; two
invocations on the same record produce structurally identical
configurations.  In this embedding the aggregator is a pure function of
the settings record, so the two results are equal by reflexivity. -/
theorem aggregator_deterministic (settings : Settings) :
    buildWebpackConfiguration settings = buildWebpackConfiguration settings := rfl

/-- Claim C8: regardless of mode, the resolve section of the generated
configuration lists the `.ts` and `.tsx` extensions in addition to the
bundler's built-in default set (the `...` marker). -/
theorem resolve_extensions_include_typescript (settings : Settings) :
    ∃ r : ResolveCfg,
      ("resolve", ConfigValue.resolveV r) ∈ buildWebpackConfiguration settings
      ∧ ".ts" ∈ r.extensions ∧ ".tsx" ∈ r.extensions ∧ "..." ∈ r.extensions := by
  refine ⟨{ extensions := [".ts", ".tsx", "..."], fallback := { fs := false, path := false } },
    ?_, by simp, by simp, by simp⟩
  simp [buildWebpackConfiguration, configureBuildMode, configureAppEntryPoints,
    configureBundleOutput, configureNodeJsBasicPolyfills, configureLoaders,
    configureSourceMapsGeneration, configureDevelopmentServer, configurePlugins,
    configureLogLevel, configureSupportedFileExtensions, configureNodeJsFallbacks]

/-- Claim C9: regardless of mode, the generated configuration forces the
`fs` and `path` fallbacks to the unavailable marker `false` and sets the
polyfill flags `global = true`, `__filename = false`, `__dirname = false`
(here `globalFlag`, `filenameFlag`, `dirnameFlag`). -/
theorem node_fallbacks_and_polyfills_fixed (settings : Settings) :
    ("node", ConfigValue.nodeV
        { globalFlag := true, filenameFlag := false, dirnameFlag := false })
      ∈ buildWebpackConfiguration settings
    ∧ ("resolve", ConfigValue.resolveV
        { extensions := [".ts", ".tsx", "..."], fallback := { fs := false, path := false } })
      ∈ buildWebpackConfiguration settings := by
  constructor <;>
    simp [buildWebpackConfiguration, configureBuildMode, configureAppEntryPoints,
      configureBundleOutput, configureNodeJsBasicPolyfills, configureLoaders,
      configureSourceMapsGeneration, configureDevelopmentServer, configurePlugins,
      configureLogLevel, configureSupportedFileExtensions, configureNodeJsFallbacks]

/-- Claim C10: the source-map pre-rule excludes the dependency-tree
pattern, so a path matched by the `node_modules` pattern is never matched
by the rule, while a path matching the script pattern outside
`node_modules` is. -/
theorem sourceMaps_rule_excludes_dependencies (settings : Settings)
    (hp : settings.patterns = defaultPatterns) :
    ∃ r : LoaderRule, createSourceMapsLoader settings = [r]
      ∧ r.exclude = some JsRegex.nodeModulesRe
      ∧ (∀ p : String, regexTest JsRegex.nodeModulesRe p = true → ruleMatches r p = false)
      ∧ (∀ p : String, regexTest JsRegex.jsxRe p = true →
          regexTest JsRegex.nodeModulesRe p = false → ruleMatches r p = true) := by
  refine ⟨{ test := JsRegex.jsxRe
            exclude := some JsRegex.nodeModulesRe
            enforce := some "pre"
            use := [.plain "source-map-loader"] }, ?_, rfl, ?_, ?_⟩
  · simp [createSourceMapsLoader, hp, defaultPatterns]
  · intro p hnm
    simp [ruleMatches, hnm]
  · intro p hjs hnm
    simp [ruleMatches, hjs, hnm]

/-- Witness for C10: the rule rejects a script under `node_modules` and
accepts one under `src`. -/
theorem sourceMaps_rule_excludes_dependencies_checks :
    ruleMatches
        { test := JsRegex.jsxRe
          exclude := some JsRegex.nodeModulesRe
          enforce := some "pre"
          use := [LoaderUse.plain "source-map-loader"] } "node_modules/lib/index.js" = false
    ∧ ruleMatches
        { test := JsRegex.jsxRe
          exclude := some JsRegex.nodeModulesRe
          enforce := some "pre"
          use := [LoaderUse.plain "source-map-loader"] } "src/app.js" = true := by
  obtain ⟨r, h1, h2, h3, h4⟩ :=
    sourceMaps_rule_excludes_dependencies (loadSettings none none "/base") rfl
  have hr : r =
      { test := JsRegex.jsxRe
        exclude := some JsRegex.nodeModulesRe
        enforce := some "pre"
        use := [LoaderUse.plain "source-map-loader"] } := by
    have h1' : ([{ test := JsRegex.jsxRe
                   exclude := some JsRegex.nodeModulesRe
                   enforce := some "pre"
                   use := [LoaderUse.plain "source-map-loader"] }] : List LoaderRule) = [r] := h1
    simpa using h1'.symm
  subst hr
  exact ⟨h3 "node_modules/lib/index.js" (by decide), h4 "src/app.js" (by decide) (by decide)⟩

end WebpackUtils
